import Mathlib

/-!
Shallow embedding of tfx/dsl/control_flow/for_each_internal.py.

The module defines two classes:
  ForEachContext - a DslContext marker for one ForEach block; identity-based
    equality and hashing; a validate method enforcing no-nesting and
    single-node-body constraints.
  Loopable - wraps a loop_var_factory callable; get_loop_var invokes it and
    shape-checks the result against the LoopVar contract; item access always
    raises.

Python exceptions are modelled as Except values; the dynamic Python value
universe is modelled by the inductive type Value below.  Object identity
(the id builtin) is modelled by an objId field assumed unique per live
object.  The ancestors chain is data supplied by the external context-stack
collaborator, so it is modelled as an input field of the context.
-/

namespace ForEachInternal

/-- Dynamic (Python) values relevant to this module: channel objects
(the external BaseChannel abstraction, identified by an object id),
string-keyed dicts, strings, integers, and None. -/
inductive Value where
  | channel (objId : Nat) : Value
  | dict (entries : List (String × Value)) : Value
  | str (s : String) : Value
  | int (n : Int) : Value
  | noneV : Value

/-- Whether a value is a channel-like object (isinstance BaseChannel). -/
def Value.isChannel : Value → Bool
  | .channel _ => true
  | _ => false

/-- Exceptions raised by this module, one constructor per raise site:
the two NotImplementedError raises in ForEachContext.validate, the two
ValueError raises in Loopable, and the RuntimeError in item access. -/
inductive PyError where
  | notImplementedNestedLoop : PyError
  | notImplementedMultipleNodes : PyError
  | valueErrorNonCallable : PyError
  | valueErrorNonLoopable : PyError
  | runtimeErrorDirectUsage : PyError
  deriving DecidableEq, Repr

/-- An ancestor context on the DSL context stack, as supplied by the
external context-stack collaborator: either another ForEach context or a
DslContext of some other kind.  Only the kind matters to validate
(isinstance check), but the fields of a ForEach ancestor are kept. -/
inductive AncestorContext where
  | forEachCtx (objId : Nat) (wrapped_channel : Option Value) : AncestorContext
  | otherCtx (objId : Nat) : AncestorContext

/-- The isinstance ForEachContext test on an ancestor. -/
def AncestorContext.isForEachContext : AncestorContext → Bool
  | .forEachCtx _ _ => true
  | .otherCtx _ => false

/-- Embedding of ForEachContext (a DslContext).  objId models Python
object identity; wrapped_channel is the optional channel attribute;
ancestors is the ordered chain of enclosing contexts read from the
external context stack. -/
structure ForEachContext where
  objId : Nat
  wrapped_channel : Option Value
  ancestors : List AncestorContext

/-- Embedding of ForEachContext.__eq__: returns (other is self); object
identity is modelled by objId, assumed unique per live object. -/
def ForEachContext.pyEq (self other : ForEachContext) : Bool :=
  other.objId == self.objId

/-- Embedding of ForEachContext.__hash__: returns hash(id(self)); in
CPython the hash of a (small) int is the int itself, so this is the
object id. -/
def ForEachContext.pyHash (self : ForEachContext) : Nat :=
  self.objId

/-- The for-loop in validate: iterate over the ancestors and stop at the
first one that is a ForEachContext (where the source raises). -/
def containsForEach : List AncestorContext → Bool
  | [] => false
  | parent :: rest =>
      if parent.isForEachContext then true else containsForEach rest

/-- Embedding of ForEachContext.validate: raises NotImplementedError at
the first ForEachContext ancestor; then raises NotImplementedError if
containing_nodes has more than one element; otherwise falls through and
returns None.  Nodes (_BaseNode = Any) are modelled as Values. -/
def ForEachContext.validate (self : ForEachContext)
    (containing_nodes : List Value) : Except PyError Unit :=
  if containsForEach self.ancestors then
    Except.error PyError.notImplementedNestedLoop
  else if containing_nodes.length > 1 then
    Except.error PyError.notImplementedMultipleNodes
  else
    Except.ok ()

/-- State-passing form of validate, returning the outcome together with
the post-state of the receiver.  The source body reads self.ancestors and
containing_nodes and contains no assignment, so the post-state is the
receiver unchanged. -/
def ForEachContext.validateRun (self : ForEachContext)
    (containing_nodes : List Value) :
    Except PyError Unit × ForEachContext :=
  (self.validate containing_nodes, self)

/-- An argument passed to the Loopable constructor: Python accepts any
object and checks callable(x).  Callable arguments are modelled as Lean
functions from ForEachContext to Value; non-callable ones as plain
values. -/
inductive FactoryArg where
  | callableFn (f : ForEachContext → Value) : FactoryArg
  | nonCallable (v : Value) : FactoryArg

/-- The callable builtin on a FactoryArg. -/
def FactoryArg.callable : FactoryArg → Bool
  | .callableFn _ => true
  | .nonCallable _ => false

/-- Embedding of the Loopable class after successful construction: it
holds exactly the stored loop_var_factory. -/
structure Loopable where
  loop_var_factory : ForEachContext → Value

/-- Embedding of Loopable.__init__: raises ValueError if the argument is
not callable, otherwise stores it as the factory. -/
def Loopable.init (x : FactoryArg) : Except PyError Loopable :=
  match x with
  | .callableFn f => Except.ok (Loopable.mk f)
  | .nonCallable _ => Except.error PyError.valueErrorNonCallable

/-- Modelled from the spec: the runtime shape check performed by the
external type-compatibility collaborator, typing_utils.is_compatible
(tfx/utils/typing_utils.py, not part of this source slice), applied to
the LoopVar contract: a single channel-like object, or a mapping from
string keys to channel-like objects. -/
def isCompatibleLoopVar : Value → Bool
  | .channel _ => true
  | .dict entries => entries.all (fun kv => kv.2.isChannel)
  | _ => false

/-- Embedding of Loopable.get_loop_var: invokes the stored factory on the
context, raises ValueError if the result fails the LoopVar shape check,
otherwise returns the result. -/
def Loopable.get_loop_var (self : Loopable) (context : ForEachContext) :
    Except PyError Value :=
  let result := self.loop_var_factory context
  if ¬ (isCompatibleLoopVar result = true) then
    Except.error PyError.valueErrorNonLoopable
  else
    Except.ok result

/-- Embedding of Loopable.__getitem__: unconditionally raises
RuntimeError, whatever the arguments are. -/
def Loopable.getitem (_self : Loopable) (_unused_args : List Value) :
    Except PyError Value :=
  Except.error PyError.runtimeErrorDirectUsage

/-- C1: for every ForEachContext whose ancestor chain contains at least
one ForEachContext, and every non-empty containing_nodes sequence,
validate raises the nested-loop (NestedLoopUnsupported) error. -/
theorem C1_validate_nested_raises (self : ForEachContext) (ns : List Value)
    (hanc : containsForEach self.ancestors = true) (_hne : ns ≠ []) :
    self.validate ns = Except.error PyError.notImplementedNestedLoop := by
  unfold ForEachContext.validate
  simp [hanc]

/-- Witness for C1 at a context with one ForEach ancestor and a
one-element node list. -/
theorem C1_validate_nested_raises_witness :
    (ForEachContext.mk 1 Option.none
        [AncestorContext.forEachCtx 0 Option.none]).validate [Value.noneV]
      = Except.error PyError.notImplementedNestedLoop :=
  C1_validate_nested_raises
    (ForEachContext.mk 1 Option.none [AncestorContext.forEachCtx 0 Option.none])
    [Value.noneV] (by decide) (by simp)

/-- C2: for every ForEachContext with no ForEachContext in its ancestor
chain and every containing_nodes sequence of more than one element,
validate raises the multiplicity (MultipleNodesUnsupported) error. -/
theorem C2_validate_multiplicity_raises (self : ForEachContext)
    (ns : List Value) (hanc : containsForEach self.ancestors = false)
    (hlen : 1 < ns.length) :
    self.validate ns = Except.error PyError.notImplementedMultipleNodes := by
  unfold ForEachContext.validate
  simp [hanc, hlen]

/-- Witness for C2 at a context with one non-ForEach ancestor and a
two-element node list. -/
theorem C2_validate_multiplicity_raises_witness :
    (ForEachContext.mk 2 Option.none [AncestorContext.otherCtx 0]).validate
        [Value.int 1, Value.int 2]
      = Except.error PyError.notImplementedMultipleNodes :=
  C2_validate_multiplicity_raises
    (ForEachContext.mk 2 Option.none [AncestorContext.otherCtx 0])
    [Value.int 1, Value.int 2] (by decide) (by decide)

/-- C3: for every ForEachContext with no ForEachContext in its ancestor
chain and every containing_nodes sequence of zero or one elements,
validate returns normally. -/
theorem C3_validate_ok (self : ForEachContext) (ns : List Value)
    (hanc : containsForEach self.ancestors = false)
    (hlen : ns.length ≤ 1) :
    self.validate ns = Except.ok () := by
  unfold ForEachContext.validate
  simp [hanc]
  omega

/-- Witness for C3 at a context with no ancestors and a one-element node
list. -/
theorem C3_validate_ok_witness :
    (ForEachContext.mk 3 Option.none []).validate [Value.int 7]
      = Except.ok () :=
  C3_validate_ok (ForEachContext.mk 3 Option.none []) [Value.int 7]
    (by decide) (by decide)

/-- C4: for every factory f and context ctx, if f ctx passes the LoopVar
shape check, get_loop_var on the Loopable storing f returns exactly
f ctx. -/
theorem C4_get_loop_var_returns_result (f : ForEachContext → Value)
    (ctx : ForEachContext) (h : isCompatibleLoopVar (f ctx) = true) :
    (Loopable.mk f).get_loop_var ctx = Except.ok (f ctx) := by
  unfold Loopable.get_loop_var
  simp [h]

/-- Witness for C4 with a factory returning a single channel. -/
theorem C4_get_loop_var_returns_result_witness :
    (Loopable.mk (fun _ => Value.channel 9)).get_loop_var
        (ForEachContext.mk 4 Option.none [])
      = Except.ok (Value.channel 9) :=
  C4_get_loop_var_returns_result (fun _ => Value.channel 9)
    (ForEachContext.mk 4 Option.none []) (by decide)

/-- C5: for every factory f and context ctx, if f ctx fails the LoopVar
shape check, get_loop_var on the Loopable storing f raises the
NonLoopableResult (ValueError) error. -/
theorem C5_get_loop_var_raises_nonloopable (f : ForEachContext → Value)
    (ctx : ForEachContext) (h : isCompatibleLoopVar (f ctx) = false) :
    (Loopable.mk f).get_loop_var ctx
      = Except.error PyError.valueErrorNonLoopable := by
  unfold Loopable.get_loop_var
  simp [h]

/-- Witness for C5 with a factory returning a string, which is not
channel-like. -/
theorem C5_get_loop_var_raises_nonloopable_witness :
    (Loopable.mk (fun _ => Value.str "not a channel")).get_loop_var
        (ForEachContext.mk 5 Option.none [])
      = Except.error PyError.valueErrorNonLoopable :=
  C5_get_loop_var_raises_nonloopable (fun _ => Value.str "not a channel")
    (ForEachContext.mk 5 Option.none []) (by decide)

/-- C6: constructing a Loopable raises the NonCallableFactory error
exactly when the argument is not callable, and on a callable argument it
succeeds and stores that argument as the factory. -/
theorem C6_init_callable_check (x : FactoryArg) :
    (Loopable.init x = Except.error PyError.valueErrorNonCallable
        ↔ x.callable = false)
    ∧ (∀ f, x = FactoryArg.callableFn f →
        Loopable.init x = Except.ok (Loopable.mk f)) := by
  cases x with
  | callableFn f =>
      refine ⟨?_, ?_⟩
      · simp [Loopable.init, FactoryArg.callable]
      · intro g hg
        cases hg
        rfl
  | nonCallable v =>
      refine ⟨?_, ?_⟩
      · simp [Loopable.init, FactoryArg.callable]
      · intro g hg
        cases hg

/-- Witness for C6 at the non-callable argument 42. -/
theorem C6_init_callable_check_witness :
    Loopable.init (FactoryArg.nonCallable (Value.int 42))
      = Except.error PyError.valueErrorNonCallable :=
  (C6_init_callable_check (FactoryArg.nonCallable (Value.int 42))).1.mpr
    (by decide)

/-- C7: item access on any Loopable with any arguments raises the
DirectUsageForbidden (RuntimeError) error; no arguments make it
succeed. -/
theorem C7_getitem_always_raises (self : Loopable) (args : List Value) :
    self.getitem args = Except.error PyError.runtimeErrorDirectUsage :=
  rfl

/-- C8: ForEachContext equality holds exactly on identical object ids
(object identity); two distinct instances with identical wrapped_channel
values are never equal; the hash is derived from the object id, so equal
contexts have equal hashes. -/
theorem C8_identity_eq_hash (a b : ForEachContext) :
    (a.pyEq b = true ↔ b.objId = a.objId)
    ∧ (a.wrapped_channel = b.wrapped_channel → a.objId ≠ b.objId →
        a.pyEq b = false)
    ∧ (a.pyEq b = true → a.pyHash = b.pyHash) := by
  refine ⟨?_, ?_, ?_⟩
  · simp [ForEachContext.pyEq]
  · intro _ hne
    simp [ForEachContext.pyEq]
    intro h
    exact absurd h.symm hne
  · intro h
    simp [ForEachContext.pyEq] at h
    simp [ForEachContext.pyHash, h]

/-- Witness for C8: two contexts with distinct ids but identical
wrapped_channel values are not equal. -/
theorem C8_identity_eq_hash_witness :
    (ForEachContext.mk 0 (Option.some (Value.channel 5)) []).pyEq
        (ForEachContext.mk 1 (Option.some (Value.channel 5)) [])
      = false :=
  (C8_identity_eq_hash
      (ForEachContext.mk 0 (Option.some (Value.channel 5)) [])
      (ForEachContext.mk 1 (Option.some (Value.channel 5)) [])).2.1
    rfl (by decide)

/-- C9: validate is a pure check: it leaves the context unchanged whether
it raises or returns, and re-running it on the post-state with the same
arguments yields the same outcome. -/
theorem C9_validate_pure (self : ForEachContext) (ns : List Value) :
    (self.validateRun ns).2 = self
    ∧ ((self.validateRun ns).2).validateRun ns = self.validateRun ns :=
  ⟨rfl, rfl⟩

/-- C10: whenever the ancestor chain contains a ForEachContext, validate
raises the nested-loop error for every containing_nodes sequence, the
empty one and multi-element ones included: the nesting check runs before
the multiplicity check. -/
theorem C10_nesting_checked_first (self : ForEachContext) (ns : List Value)
    (hanc : containsForEach self.ancestors = true) :
    self.validate ns = Except.error PyError.notImplementedNestedLoop := by
  unfold ForEachContext.validate
  simp [hanc]

/-- Witness for C10 at a nested context with a two-element node list, on
which both violations hold and the nested-loop error is the one
raised. -/
theorem C10_nesting_checked_first_witness :
    (ForEachContext.mk 6 Option.none
        [AncestorContext.otherCtx 1,
         AncestorContext.forEachCtx 0 Option.none]).validate
        [Value.int 1, Value.int 2]
      = Except.error PyError.notImplementedNestedLoop :=
  C10_nesting_checked_first
    (ForEachContext.mk 6 Option.none
      [AncestorContext.otherCtx 1, AncestorContext.forEachCtx 0 Option.none])
    [Value.int 1, Value.int 2] (by decide)

end ForEachInternal
